import Mathlib

/-!
Shallow embedding of the SalesCrew Socket.IO chat server
(src/server.js and src/unnamed/part_002, the poll-enabled variant whose
handlers are a superset of server.js).  JavaScript dynamic values are
modelled by `JsVal`; JS strings that undergo `trim`/`length` are modelled
as `List Char` (code points; JS counts UTF-16 units, which agrees on the
texts at issue here).  The backing store (Supabase tables) is modelled as
lists of rows inside `Store`, with point queries as `List.find?` and
inserts as appends; store calls are taken on their happy path (no network
failures), which is the fragment the claims speak about.
-/

namespace SalesCrew

/-- A non-array JavaScript value.  Array elements are restricted to these:
the handlers only inspect one level of array nesting (poll options). -/
inductive JsAtom where
  | undef
  | nullV
  | boolV (b : Bool)
  | strV (s : List Char)
  | numV (n : Int)
deriving Repr, DecidableEq

/-- A JavaScript runtime value, as far as the handlers inspect one:
`undefined`, `null`, booleans, strings, numbers and (flat) arrays. -/
inductive JsVal where
  | undef
  | nullV
  | boolV (b : Bool)
  | strV (s : List Char)
  | numV (n : Int)
  | arrV (elems : List JsAtom)
deriving Repr, DecidableEq

/-- `typeof x === 'string'` for an array element. -/
def JsAtom.isString : JsAtom → Bool
  | .strV _ => true
  | _ => false

/-- The character list of a string element (empty for non-strings). -/
def JsAtom.asStr : JsAtom → List Char
  | .strV s => s
  | _ => []

/-- The `String(x)` coercion, to the extent the poll-option mapping uses it. -/
def JsAtom.jsToString : JsAtom → List Char
  | .strV s => s
  | .boolV true => [ 't', 'r', 'u', 'e' ]
  | .boolV false => [ 'f', 'a', 'l', 's', 'e' ]
  | .undef => [ 'u', 'n', 'd', 'e', 'f', 'i', 'n', 'e', 'd' ]
  | .nullV => [ 'n', 'u', 'l', 'l' ]
  | .numV _ => []

/-- JS truthiness (`!x` in the source negates this). -/
def JsVal.truthy : JsVal → Bool
  | .undef => false
  | .nullV => false
  | .boolV b => b
  | .strV s => !s.isEmpty
  | .numV n => n != 0
  | .arrV _ => true

/-- `typeof x === 'string'`. -/
def JsVal.isString : JsVal → Bool
  | .strV _ => true
  | _ => false

/-- `typeof x === 'boolean'`. -/
def JsVal.isBool : JsVal → Bool
  | .boolV _ => true
  | _ => false

/-- `Array.isArray(x)`. -/
def JsVal.isArray : JsVal → Bool
  | .arrV _ => true
  | _ => false

/-- The character list of a string value (empty for non-strings). -/
def JsVal.asStr : JsVal → List Char
  | .strV s => s
  | _ => []

/-- The element list of an array value (empty for non-arrays). -/
def JsVal.asArr : JsVal → List JsAtom
  | .arrV xs => xs
  | _ => []

/-- `String.prototype.trim`: strip whitespace from both ends. -/
def jsTrim (s : List Char) : List Char :=
  ((s.dropWhile Char.isWhitespace).reverse.dropWhile Char.isWhitespace).reverse

/-- Row of `chat_participants`. -/
structure ParticipantRow where
  conversationId : String
  userId : String
  lastReadAt : Nat
deriving Repr, DecidableEq

/-- Row of `chat_conversations`. -/
structure ConversationRow where
  id : String
  isReadOnly : Bool
  updatedAt : Nat
deriving Repr, DecidableEq

/-- Row of `chat_messages`. -/
structure MessageRow where
  id : String
  conversationId : String
  senderId : String
  messageText : List Char
  messageType : String
  fileUrl : Option String
  fileName : Option String
  replyToId : Option String
  pollId : Option String
  edited : Bool
  deletedForAll : Bool
  createdAt : Nat
  updatedAt : Nat
deriving Repr, DecidableEq

/-- Row of `chat_polls`. -/
structure PollRow where
  id : String
  conversationId : String
  createdBy : String
  question : List Char
  allowMultiple : Bool
deriving Repr, DecidableEq

/-- Row of `chat_poll_options`. -/
structure PollOptionRow where
  id : String
  pollId : String
  optionText : List Char
  orderIndex : Nat
deriving Repr, DecidableEq

/-- Row of `chat_poll_votes` (unique per (pollId, optionId, userId)). -/
structure PollVoteRow where
  pollId : String
  optionId : String
  userId : String
  createdAt : Nat
deriving Repr, DecidableEq

/-- Row of `chat_message_reactions`. -/
structure ReactionRow where
  messageId : String
  userId : String
  emoji : String
deriving Repr, DecidableEq

/-- Row of `user_profiles`. -/
structure ProfileRow where
  userId : String
  role : String
  displayName : String
deriving Repr, DecidableEq

/-- The relational store, one list per table. -/
structure Store where
  participants : List ParticipantRow
  conversations : List ConversationRow
  messages : List MessageRow
  polls : List PollRow
  pollOptions : List PollOptionRow
  pollVotes : List PollVoteRow
  reactions : List ReactionRow
  profiles : List ProfileRow
deriving Repr, DecidableEq

/-- Point query `.eq('conversation_id', cid).eq('user_id', uid).single()`
on `chat_participants`. -/
def findParticipant (s : Store) (cid uid : String) : Option ParticipantRow :=
  s.participants.find? (fun p => p.conversationId == cid && p.userId == uid)

/-- Point query `.eq('id', cid).single()` on `chat_conversations`. -/
def findConversation (s : Store) (cid : String) : Option ConversationRow :=
  s.conversations.find? (fun c => c.id == cid)

/-- Point query `.eq('id', mid).single()` on `chat_messages`. -/
def findMessage (s : Store) (mid : String) : Option MessageRow :=
  s.messages.find? (fun m => m.id == mid)

/-- Point query `.eq('id', pid).single()` on `chat_polls`. -/
def findPoll (s : Store) (pid : String) : Option PollRow :=
  s.polls.find? (fun p => p.id == pid)

/-- Profile lookup `.eq('user_id', uid).single()` on `user_profiles`. -/
def findProfile (s : Store) (uid : String) : Option ProfileRow :=
  s.profiles.find? (fun p => p.userId == uid)

/-- The per-connection context attached by the authentication middleware. -/
structure SocketCtx where
  userId : String
  userName : String
  userRole : String
deriving Repr, DecidableEq

/-- `isAdminRole` from part_002 (server.js inlines the same list check). -/
def isAdminRole (role : String) : Bool :=
  role == "admin_staff" || role == "admin_of_admins"

/-- `validatePollInput(question, options, allowMultiple)` from part_002,
returning `some errorMessage` on the first failing check, `none` when valid. -/
def validatePollInput (question options allowMultiple : JsVal) : Option String :=
  if !question.truthy || !question.isString then
    some "Question is required"
  else
    let trimmedQuestion := jsTrim question.asStr
    if trimmedQuestion.length < 1 || trimmedQuestion.length > 200 then
      some "Question must be 1-200 characters"
    else if !options.isArray then
      some "Options must be an array"
    else if options.asArr.length < 2 || options.asArr.length > 12 then
      some "Options must be between 2 and 12"
    else if options.asArr.any (fun opt =>
        !opt.isString || (jsTrim opt.asStr).length < 1 ||
        (jsTrim opt.asStr).length > 120) then
      some "Each option must be 1-120 characters"
    else if !allowMultiple.isBool then
      some "allowMultiple must be a boolean"
    else
      none

/-- Snapshot of the message a reply points at, as attached to `new_message`. -/
structure ReplyToDetails where
  id : String
  senderName : String
  messageText : List Char
  messageType : String
  fileUrl : Option String
  fileName : Option String
deriving Repr, DecidableEq

/-- One option of the poll payload embedded in a poll `new_message`. -/
structure PollOptionPayload where
  id : String
  text : List Char
  count : Nat
  voterIds : List String
deriving Repr, DecidableEq

/-- The poll payload embedded in a poll `new_message`. -/
structure PollPayload where
  id : String
  question : List Char
  allowMultiple : Bool
  options : List PollOptionPayload
  myVotes : List String
deriving Repr, DecidableEq

/-- A message row enriched with sender name/role, reply snapshot and poll
payload, as broadcast in `new_message` and echoed in the acknowledgment. -/
structure EnrichedMessage where
  row : MessageRow
  senderName : String
  senderRole : String
  replyTo : Option ReplyToDetails
  poll : Option PollPayload
deriving Repr, DecidableEq

/-- An (emoji, count) pair of the reaction summary. -/
structure EmojiCount where
  emoji : String
  count : Nat
deriving Repr, DecidableEq

/-- Payload of the `reaction_updated` broadcast. -/
structure ReactionUpdatedPayload where
  conversationId : String
  messageId : String
  reactionsSummary : List EmojiCount
  topReaction : Option EmojiCount
  totalReactions : Nat
deriving Repr, DecidableEq

/-- One (optionId, count) pair of the `poll_updated` totals. -/
structure OptionTotal where
  optionId : String
  count : Nat
deriving Repr, DecidableEq

/-- Payload of the `poll_updated` broadcast (also spread into the ack). -/
structure PollUpdatedPayload where
  conversationId : String
  pollId : String
  totals : List OptionTotal
  votersByOption : List (String × List String)
  myVotes : List String
deriving Repr, DecidableEq

/-- Payload of a room broadcast, tagged by event name. -/
inductive BPayload where
  | newMessage (m : EnrichedMessage)
  | messageDeleted (conversationId messageId : String)
  | messageEdited (conversationId messageId : String) (messageText : List Char)
      (updatedAt : Nat)
  | userRead (userId conversationId : String)
  | userTyping (userId userName conversationId : String)
  | userStoppedTyping (userId conversationId : String)
  | reactionUpdated (p : ReactionUpdatedPayload)
  | pollUpdated (p : PollUpdatedPayload)
deriving Repr, DecidableEq

/-- A room emit: `io.to(room)` has `excludeSender = false`,
`socket.to(room)` has `excludeSender = true`. -/
structure Broadcast where
  room : String
  excludeSender : Bool
  payload : BPayload
deriving Repr, DecidableEq

/-- A `socket.emit('error', ...)` pushed directly to the sender. -/
structure SenderEvent where
  errType : String
  message : String
deriving Repr, DecidableEq

/-- The value passed to the acknowledgment callback. -/
inductive Ack where
  | ok
  | okMessage (m : EnrichedMessage)
  | okPoll (p : PollUpdatedPayload)
  | err (msg : String)
deriving Repr, DecidableEq

/-- The observable outcome of a handler run: resulting store, room
broadcasts, sender-directed error events, and the acknowledgment. -/
structure HandlerResult where
  store : Store
  broadcasts : List Broadcast
  senderEvents : List SenderEvent
  ack : Option Ack
deriving Repr, DecidableEq

/-- Invoking the acknowledgment callback.  `none` models a client that sent
no ack callback: invoking it raises a TypeError, modelled as `Except.error`. -/
def callCb (cb : Option Unit) (a : Ack) : Except String Ack :=
  match cb with
  | some _ => .ok a
  | none => .error "TypeError: callback is not a function"

/-- A handler path that performs its effects and then acknowledges. -/
def ackWith (cb : Option Unit) (s : Store) (bs : List Broadcast)
    (es : List SenderEvent) (a : Ack) : Except String HandlerResult :=
  (callCb cb a).map (fun a0 => ⟨s, bs, es, some a0⟩)

/-- The `const cb = typeof callback === 'function' ? callback : () => {}`
guard: whatever was passed, the effective callback is invocable. -/
def guardCb (callback : Option Unit) : Option Unit :=
  match callback with
  | some c => some c
  | none => some ()

/-- The `try { body } catch { onCatch }` shape of every handler. -/
def jsTry (body onCatch : Except String HandlerResult) :
    Except String HandlerResult :=
  match body with
  | .ok r => .ok r
  | .error _ => onCatch

/-- Stable insertion into a list sorted by `le`. -/
def insertSorted (le : α → α → Bool) (x : α) : List α → List α
  | [] => [x]
  | y :: ys => if le x y then x :: y :: ys else y :: insertSorted le x ys

/-- Stable insertion sort by `le` (the shape `Array.prototype.sort` gives
for a consistent comparator). -/
def sortByLe (le : α → α → Bool) (xs : List α) : List α :=
  xs.foldr (insertSorted le) []

/-- Authenticated user identity returned by `supabase.auth.getUser`. -/
structure AuthUser where
  id : String
  email : String
deriving Repr, DecidableEq

/-- The identity the middleware attaches to the socket. -/
structure AuthedUser where
  userId : String
  userEmail : String
  userRole : String
  userName : String
deriving Repr, DecidableEq

/-- Outcome of the `io.use` authentication middleware: `next(new Error(m))`
or `next()` with the user attached. -/
inductive AuthOutcome where
  | rejected (msg : String)
  | ok (u : AuthedUser)
deriving Repr, DecidableEq

/-- The `io.use` authentication middleware (server.js lines 67-104).
`verifyToken` models `supabase.auth.getUser`: it returns the user (or
`none`) and an error flag. -/
def authMiddleware (verifyToken : JsVal → Option AuthUser × Bool) (s : Store)
    (token : JsVal) : AuthOutcome :=
  if !token.truthy then
    .rejected "Authentication token missing"
  else
    match verifyToken token with
    | (_, true) => .rejected "Invalid authentication token"
    | (none, false) => .rejected "Invalid authentication token"
    | (some user, false) =>
      let profile := findProfile s user.id
      let role := match profile with
        | some p => if p.role == "" then "promotor" else p.role
        | none => "promotor"
      let name := match profile with
        | some p => if p.displayName == "" then user.email else p.displayName
        | none => user.email
      .ok ⟨user.id, user.email, role, name⟩

/-- Lifecycle outcome of an incoming connection: refused by the middleware,
or active with the auto-joined room list. -/
inductive ConnState where
  | refused (msg : String)
  | active (u : AuthedUser) (rooms : List String)
deriving Repr, DecidableEq

/-- Whether a connection outcome is the Active state. -/
def ConnState.isActive : ConnState → Bool
  | .active _ _ => true
  | .refused _ => false

/-- Full connection setup: middleware gate, then (only on success) the
connection handler that auto-joins the user's conversation rooms
(server.js lines 109-127). -/
def establishConnection (verifyToken : JsVal → Option AuthUser × Bool)
    (s : Store) (token : JsVal) : ConnState :=
  match authMiddleware verifyToken s token with
  | .rejected m => .refused m
  | .ok u =>
    .active u
      ((s.participants.filter (fun p => p.userId == u.userId)).map
        (fun p => p.conversationId))

/-- Server-generated row ids for the inserts of one `send_message` call. -/
structure FreshIds where
  pollId : String
  messageId : String
  optionId : Nat → String

/-- Payload of `send_message`. -/
structure SendMessagePayload where
  conversationId : String
  messageText : List Char
  messageType : String := "text"
  fileUrl : Option String := none
  fileName : Option String := none
  replyToId : Option String := none
  pollQuestion : JsVal := .undef
  pollOptions : JsVal := .undef
  allowMultiple : JsVal := .undef
deriving Repr, DecidableEq

/-- The `send_message` handler (part_002 lines 164-362; server.js lines
132-230 is the same handler without the poll branch).  The callback is NOT
guarded by a typeof check in the source, so a missing callback throws. -/
def sendMessage (callback : Option Unit) (ctx : SocketCtx) (s : Store)
    (d : SendMessagePayload) (fresh : FreshIds) (now : Nat) :
    Except String HandlerResult :=
  jsTry
    (match findParticipant s d.conversationId ctx.userId with
     | none => ackWith callback s [] [] (.err "Not a participant in this conversation")
     | some _ =>
       if (((findConversation s d.conversationId).map
             (fun c => c.isReadOnly)).getD false) && !(isAdminRole ctx.userRole) then
         ackWith callback s [] [] (.err "Cannot send messages to read-only conversation")
       else if d.messageType == "poll" then
         if !(isAdminRole ctx.userRole) then
           ackWith callback s [] [] (.err "Only admins can create polls")
         else
           let allowMultiple := d.allowMultiple == JsVal.boolV true
           match validatePollInput d.pollQuestion d.pollOptions (.boolV allowMultiple) with
           | some validationError => ackWith callback s [] [] (.err validationError)
           | none =>
             let pollRow : PollRow :=
               ⟨fresh.pollId, d.conversationId, ctx.userId,
                jsTrim d.pollQuestion.asStr, allowMultiple⟩
             let optionsRows : List PollOptionRow :=
               d.pollOptions.asArr.enum.map (fun p =>
                 ⟨fresh.optionId p.1, fresh.pollId, jsTrim p.2.jsToString, p.1⟩)
             let msgRow : MessageRow :=
               ⟨fresh.messageId, d.conversationId, ctx.userId,
                jsTrim d.pollQuestion.asStr, "poll", none, none, d.replyToId,
                some fresh.pollId, false, false, now, now⟩
             let s1 : Store := { s with
               polls := s.polls ++ [pollRow],
               pollOptions := s.pollOptions ++ optionsRows,
               messages := s.messages ++ [msgRow],
               conversations := s.conversations.map (fun c =>
                 if c.id == d.conversationId then { c with updatedAt := now } else c) }
             let pollPayload : PollPayload :=
               ⟨pollRow.id, pollRow.question, pollRow.allowMultiple,
                (sortByLe (fun a b => Nat.ble a.orderIndex b.orderIndex) optionsRows).map
                  (fun o => ⟨o.id, o.optionText, 0, []⟩), []⟩
             let messageWithSender : EnrichedMessage :=
               ⟨msgRow, ctx.userName, ctx.userRole, none, some pollPayload⟩
             ackWith callback s1
               [⟨d.conversationId, false, .newMessage messageWithSender⟩] []
               (.okMessage messageWithSender)
       else
         let msgRow : MessageRow :=
           ⟨fresh.messageId, d.conversationId, ctx.userId, d.messageText,
            d.messageType, d.fileUrl, d.fileName, d.replyToId, none, false,
            false, now, now⟩
         let s1 : Store := { s with
           messages := s.messages ++ [msgRow],
           conversations := s.conversations.map (fun c =>
             if c.id == d.conversationId then { c with updatedAt := now } else c) }
         let replyToDetails : Option ReplyToDetails :=
           match d.replyToId with
           | none => none
           | some rid =>
             match findMessage s1 rid with
             | none => none
             | some rm =>
               some ⟨rm.id,
                 (match findProfile s1 rm.senderId with
                  | some pr => if pr.displayName == "" then "Unknown" else pr.displayName
                  | none => "Unknown"),
                 rm.messageText, rm.messageType, rm.fileUrl, rm.fileName⟩
         let messageWithSender : EnrichedMessage :=
           ⟨msgRow, ctx.userName, ctx.userRole, replyToDetails, none⟩
         ackWith callback s1
           [⟨d.conversationId, false, .newMessage messageWithSender⟩] []
           (.okMessage messageWithSender))
    (ackWith callback s [] [] (.err "Failed to send message"))

/-- The `typing_start` handler (server.js lines 235-254): participant check,
then `user_typing` to the room excluding the sender; no acknowledgment. -/
def typingStart (ctx : SocketCtx) (s : Store) (conversationId : String) :
    HandlerResult :=
  match findParticipant s conversationId ctx.userId with
  | some _ =>
    ⟨s, [⟨conversationId, true, .userTyping ctx.userId ctx.userName conversationId⟩],
     [], none⟩
  | none => ⟨s, [], [], none⟩

/-- The `mark_read` handler (server.js lines 270-293).  There is no
participant check: the update is merely filtered to the caller's own
participant row, and `user_read` is broadcast regardless of whether any
row matched.  The callback is not guarded by a typeof check. -/
def markRead (callback : Option Unit) (ctx : SocketCtx) (s : Store)
    (conversationId : String) (now : Nat) : Except String HandlerResult :=
  jsTry
    (let s1 : Store := { s with participants := s.participants.map (fun p =>
        if p.conversationId == conversationId && p.userId == ctx.userId then
          { p with lastReadAt := now } else p) }
     ackWith callback s1
       [⟨conversationId, true, .userRead ctx.userId conversationId⟩] [] .ok)
    (ackWith callback s [] [] (.err "Failed to mark as read"))

/-- Payload of `delete_message`. -/
structure DeleteMessagePayload where
  conversationId : String
  messageId : String
  deleteForEveryone : JsVal
deriving Repr, DecidableEq

/-- The `delete_message` handler (server.js lines 298-359).  The callback is
guarded; the deletion itself is performed by an external surface, this
handler only gates and triggers the broadcast. -/
def deleteMessage (callback : Option Unit) (ctx : SocketCtx) (s : Store)
    (d : DeleteMessagePayload) : Except String HandlerResult :=
  let cb := guardCb callback
  jsTry
    (match findParticipant s d.conversationId ctx.userId with
     | none => ackWith cb s [] [] (.err "Not a participant in this conversation")
     | some _ =>
       if !d.deleteForEveryone.truthy then
         ackWith cb s [] [] .ok
       else
         match findMessage s d.messageId with
         | none => ackWith cb s [] [] (.err "Message not found")
         | some m =>
           if m.conversationId != d.conversationId then
             ackWith cb s [] [] (.err "Message does not belong to this conversation")
           else
             let isOwner := m.senderId == ctx.userId
             let isAdmin := isAdminRole ctx.userRole
             if !isOwner && !isAdmin then
               ackWith cb s [] [] (.err "Not authorized to delete this message for everyone")
             else
               ackWith cb s
                 [⟨d.conversationId, false,
                   .messageDeleted d.conversationId d.messageId⟩] [] .ok)
    (ackWith cb s [] [] (.err "Failed to delete message"))

/-- Payload of `edit_message`. -/
structure EditMessagePayload where
  conversationId : String
  messageId : String
  newText : JsVal
deriving Repr, DecidableEq

/-- The `edit_message` handler (server.js lines 364-469).  The callback is
guarded; every failure also pushes an `edit_message_failed` error event to
the sender.  Note the oversize check is on the UNTRIMMED text length. -/
def editMessage (callback : Option Unit) (ctx : SocketCtx) (s : Store)
    (d : EditMessagePayload) (now : Nat) : Except String HandlerResult :=
  let cb := guardCb callback
  let fail : String → Except String HandlerResult := fun msg =>
    ackWith cb s [] [⟨"edit_message_failed", msg⟩] (.err msg)
  jsTry
    (if !d.newText.truthy || !d.newText.isString ||
        (jsTrim d.newText.asStr).length == 0 then
       fail "Message text cannot be empty"
     else if d.newText.asStr.length > 5000 then
       fail "Message text too long (max 5000 chars)"
     else
       match findParticipant s d.conversationId ctx.userId with
       | none => fail "Not a participant in this conversation"
       | some _ =>
         match findMessage s d.messageId with
         | none => fail "Message not found"
         | some m =>
           if m.conversationId != d.conversationId then
             fail "Message does not belong to this conversation"
           else if m.senderId != ctx.userId then
             fail "Not authorized to edit this message"
           else if m.messageType != "text" then
             fail "Only text messages can be edited"
           else if m.deletedForAll then
             fail "Cannot edit deleted messages"
           else
             let trimmedText := jsTrim d.newText.asStr
             if s.messages.any (fun mm =>
                 mm.id == d.messageId && mm.senderId == ctx.userId) then
               let s1 : Store := { s with messages := s.messages.map (fun mm =>
                 if mm.id == d.messageId && mm.senderId == ctx.userId then
                   { mm with messageText := trimmedText, edited := true,
                             updatedAt := now }
                 else mm) }
               ackWith cb s1
                 [⟨d.conversationId, false,
                   .messageEdited d.conversationId d.messageId trimmedText now⟩]
                 [] .ok
             else
               fail "Failed to update message")
    (ackWith cb s [] [⟨"edit_message_failed", "Internal server error"⟩]
      (.err "Internal server error"))

/-- Payload of `vote_poll`. -/
structure VotePollPayload where
  conversationId : String
  pollId : String
  optionId : String
  checked : JsVal
deriving Repr, DecidableEq

/-- First-insertion-order deduplication (the JS `Set` built from the poll's
option rows). -/
def dedupStr (xs : List String) : List String :=
  xs.foldl (fun acc x => if acc.contains x then acc else acc ++ [x]) []

/-- Votes ordered by `created_at` descending (`.order('created_at',
ascending: false)`), stable on ties. -/
def sortVotesByCreatedDesc (vs : List PollVoteRow) : List PollVoteRow :=
  sortByLe (fun a b => Nat.ble b.createdAt a.createdAt) vs

/-- Record one voter under an option, keeping at most the 3 most recent. -/
def addVoter (acc : List (String × List String)) (oid uid : String) :
    List (String × List String) :=
  if acc.any (fun p => p.1 == oid) then
    acc.map (fun p =>
      if p.1 == oid then (p.1, if p.2.length < 3 then p.2 ++ [uid] else p.2)
      else p)
  else acc ++ [(oid, [uid])]

/-- Number of votes in `vs` on option `oid` (the `countsByOption` map). -/
def countVotesFor (vs : List PollVoteRow) (oid : String) : Nat :=
  (vs.filter (fun v => v.optionId == oid)).length

/-- The `vote_poll` handler (part_002 lines 367-481).  The callback is
guarded.  Single-choice polls delete the user's existing votes on the poll
before the upsert; the upsert is idempotent on (pollId, optionId, userId). -/
def votePoll (callback : Option Unit) (ctx : SocketCtx) (s : Store)
    (d : VotePollPayload) (now : Nat) : Except String HandlerResult :=
  let cb := guardCb callback
  jsTry
    (if d.conversationId == "" || d.pollId == "" || d.optionId == "" ||
        !d.checked.isBool then
       ackWith cb s [] [] (.err "Invalid payload")
     else
       match findParticipant s d.conversationId ctx.userId with
       | none => ackWith cb s [] [] (.err "Not a participant in this conversation")
       | some _ =>
         match findPoll s d.pollId with
         | none => ackWith cb s [] [] (.err "Poll does not belong to conversation")
         | some poll =>
           if poll.conversationId != d.conversationId then
             ackWith cb s [] [] (.err "Poll does not belong to conversation")
           else
             let optionIdList := dedupStr
               ((s.pollOptions.filter (fun o => o.pollId == d.pollId)).map
                 (fun o => o.id))
             if !optionIdList.contains d.optionId then
               ackWith cb s [] [] (.err "Invalid option for this poll")
             else
               let s1 : Store :=
                 if !poll.allowMultiple && d.checked.truthy then
                   { s with pollVotes := s.pollVotes.filter (fun v =>
                       !(v.pollId == d.pollId && v.userId == ctx.userId)) }
                 else s
               let s2 : Store :=
                 if d.checked.truthy then
                   if s1.pollVotes.any (fun v =>
                       v.pollId == d.pollId && v.optionId == d.optionId &&
                       v.userId == ctx.userId) then s1
                   else { s1 with pollVotes :=
                     s1.pollVotes ++ [⟨d.pollId, d.optionId, ctx.userId, now⟩] }
                 else
                   { s1 with pollVotes := s1.pollVotes.filter (fun v =>
                       !(v.pollId == d.pollId && v.optionId == d.optionId &&
                         v.userId == ctx.userId)) }
               let votes := sortVotesByCreatedDesc
                 (s2.pollVotes.filter (fun v => v.pollId == d.pollId))
               let votersByOption := votes.foldl
                 (fun acc v => addVoter acc v.optionId v.userId) []
               let totals := optionIdList.map (fun oid =>
                 OptionTotal.mk oid (countVotesFor votes oid))
               let myVotes := (votes.filter (fun v => v.userId == ctx.userId)).map
                 (fun v => v.optionId)
               let payload : PollUpdatedPayload :=
                 ⟨d.conversationId, d.pollId, totals, votersByOption, myVotes⟩
               ackWith cb s2 [⟨d.conversationId, false, .pollUpdated payload⟩] []
                 (.okPoll payload))
    (ackWith cb s [] [] (.err "Failed to process vote"))

/-- One reaction record folded into the emoji-count accumulator (the JS
`Map`, which preserves first-insertion order). -/
def bumpEmoji (acc : List EmojiCount) (e : String) : List EmojiCount :=
  if acc.any (fun ec => ec.emoji == e) then
    acc.map (fun ec => if ec.emoji == e then ⟨ec.emoji, ec.count + 1⟩ else ec)
  else acc ++ [⟨e, 1⟩]

/-- Aggregate raw reaction records into per-emoji counts. -/
def tallyEmojis (rs : List ReactionRow) : List EmojiCount :=
  rs.foldl (fun acc r => bumpEmoji acc r.emoji) []

/-- The reaction summary sort: count descending, ties by the host's
`String.prototype.localeCompare`, an implementation/locale-defined collation
passed here as a parameter. -/
def sortReactionsSummary (localeCompare : String → String → Int)
    (xs : List EmojiCount) : List EmojiCount :=
  sortByLe (fun a b =>
    if a.count != b.count then Nat.ble b.count a.count
    else decide (localeCompare a.emoji b.emoji ≤ 0)) xs

/-- The `react_to_message` handler (server.js lines 474-532); the
`remove_reaction` handler (lines 537-595) is the identical computation.
No acknowledgment; the reaction row itself is written by an external
surface, this handler recomputes and broadcasts the summary. -/
def reactToMessage (localeCompare : String → String → Int) (ctx : SocketCtx)
    (s : Store) (conversationId messageId : String) : HandlerResult :=
  match findParticipant s conversationId ctx.userId with
  | none => ⟨s, [], [], none⟩
  | some _ =>
    let reactions := s.reactions.filter (fun r => r.messageId == messageId)
    let reactionsSummary :=
      sortReactionsSummary localeCompare (tallyEmojis reactions)
    let topReaction := reactionsSummary.head?
    ⟨s,
     [⟨conversationId, false,
       .reactionUpdated
         ⟨conversationId, messageId, reactionsSummary, topReaction,
          reactions.length⟩⟩], [], none⟩

/-- The outcome of the success arm of the poll branch of `sendMessage`
(part_002 lines 208-288), named so that statements can refer to it.  Note
`allowMultiple` is the `=== true` coercion of the raw payload value. -/
def pollSendOutcome (ctx : SocketCtx) (s : Store) (d : SendMessagePayload)
    (fresh : FreshIds) (now : Nat) : HandlerResult :=
  let allowMultiple := d.allowMultiple == JsVal.boolV true
  let pollRow : PollRow :=
    ⟨fresh.pollId, d.conversationId, ctx.userId,
     jsTrim d.pollQuestion.asStr, allowMultiple⟩
  let optionsRows : List PollOptionRow :=
    d.pollOptions.asArr.enum.map (fun p =>
      ⟨fresh.optionId p.1, fresh.pollId, jsTrim p.2.jsToString, p.1⟩)
  let msgRow : MessageRow :=
    ⟨fresh.messageId, d.conversationId, ctx.userId,
     jsTrim d.pollQuestion.asStr, "poll", none, none, d.replyToId,
     some fresh.pollId, false, false, now, now⟩
  let s1 : Store := { s with
    polls := s.polls ++ [pollRow],
    pollOptions := s.pollOptions ++ optionsRows,
    messages := s.messages ++ [msgRow],
    conversations := s.conversations.map (fun c =>
      if c.id == d.conversationId then { c with updatedAt := now } else c) }
  let pollPayload : PollPayload :=
    ⟨pollRow.id, pollRow.question, pollRow.allowMultiple,
     (sortByLe (fun a b => Nat.ble a.orderIndex b.orderIndex) optionsRows).map
       (fun o => ⟨o.id, o.optionText, 0, []⟩), []⟩
  let messageWithSender : EnrichedMessage :=
    ⟨msgRow, ctx.userName, ctx.userRole, none, some pollPayload⟩
  ⟨s1, [⟨d.conversationId, false, .newMessage messageWithSender⟩], [],
   some (.okMessage messageWithSender)⟩

/-- The acknowledgment a handler run produced, if it ran to completion. -/
def ackOutcome : Except String HandlerResult → Option Ack
  | .ok r => r.ack
  | .error _ => none

/-- Whether a handler run completed (as opposed to throwing out of the
handler, which surfaces as an unhandled rejection at process level). -/
def isCompleted : Except String HandlerResult → Bool
  | .ok _ => true
  | .error _ => false

/-- The store a handler run left behind, if it ran to completion. -/
def storeOutcome : Except String HandlerResult → Option Store
  | .ok r => some r.store
  | .error _ => none

/-- Whether an acknowledgment value reports success rather than an error. -/
def Ack.isSuccess : Ack → Bool
  | .err _ => false
  | _ => true

/-- The store after a `vote_poll` call that ran to completion (with an
acknowledging client). -/
def voteStore (ctx : SocketCtx) (s : Store) (d : VotePollPayload) (now : Nat) :
    Option Store :=
  match votePoll (some ()) ctx s d now with
  | .ok r => some r.store
  | .error _ => none

/-- Number of vote rows for the composite key (pollId, optionId, userId). -/
def countTriple (s : Store) (p o u : String) : Nat :=
  (s.pollVotes.filter (fun v =>
    v.pollId == p && v.optionId == o && v.userId == u)).length

/-- A fixed id supply for concrete runs. -/
def freshA : FreshIds :=
  ⟨"pNew", "mNew", fun i => "oNew" ++ toString i⟩

/-- A standard-role connected user. -/
def ctxA : SocketCtx := ⟨"uA", "Alice", "promotor"⟩

/-- An admin-tier connected user. -/
def ctxAdmin : SocketCtx := ⟨"uAdm", "Ada", "admin_staff"⟩

/-- A non-participant connected user. -/
def ctxX : SocketCtx := ⟨"uX", "Xen", "promotor"⟩

/-- A small concrete store: one conversation `c1` with participants `uA`,
`uB`, `uAdm`, one text message `m1` by `uA`, a single-choice poll `p1` with
options `o1`, `o2` and a multi-choice poll `p2` with options `o3`, `o4`. -/
def baseStore : Store where
  participants := [⟨"c1", "uA", 0⟩, ⟨"c1", "uB", 0⟩, ⟨"c1", "uAdm", 0⟩]
  conversations := [⟨"c1", false, 0⟩]
  messages :=
    [⟨"m1", "c1", "uA", [ 'h', 'i' ], "text", none, none, none, none,
      false, false, 0, 0⟩]
  polls := [⟨"p1", "c1", "uAdm", [ 'q' ], false⟩,
            ⟨"p2", "c1", "uAdm", [ 'q' ], true⟩]
  pollOptions := [⟨"o1", "p1", [ 'a' ], 0⟩, ⟨"o2", "p1", [ 'b' ], 1⟩,
                  ⟨"o3", "p2", [ 'a' ], 0⟩, ⟨"o4", "p2", [ 'b' ], 1⟩]
  pollVotes := []
  reactions := []
  profiles := [⟨"uA", "promotor", "Alice"⟩]

/-- `baseStore` with an existing single-choice vote by `uA` on option `o1`
of poll `p1`. -/
def storeWithVoteA : Store :=
  { baseStore with pollVotes := [⟨"p1", "o1", "uA", 1⟩] }

/-! ## Helper lemmas -/

theorem guardCb_eq (cb : Option Unit) : guardCb cb = some () := by
  cases cb with
  | none => rfl
  | some c => cases c; rfl

theorem jsTry_completed (b : Except String HandlerResult) (r : HandlerResult) :
    isCompleted (jsTry b (.ok r)) = true := by
  cases b <;> rfl

theorem jsTrim_length_le (s : List Char) : (jsTrim s).length ≤ s.length := by
  unfold jsTrim
  simp only [List.length_reverse]
  calc ((s.dropWhile Char.isWhitespace).reverse.dropWhile Char.isWhitespace).length
      ≤ (s.dropWhile Char.isWhitespace).reverse.length :=
        (List.dropWhile_sublist _).length_le
    _ = (s.dropWhile Char.isWhitespace).length := List.length_reverse _
    _ ≤ s.length := (List.dropWhile_sublist _).length_le

theorem jsTrim_nil : jsTrim [] = [] := rfl

theorem dedupStr_contains (xs : List String) (x : String) :
    (dedupStr xs).contains x = xs.contains x := by
  suffices h : ∀ acc : List String,
      ((xs.foldl (fun acc y => if acc.contains y then acc else acc ++ [y])
        acc).contains x) = (acc.contains x || xs.contains x) by
    simpa [dedupStr] using h []
  induction xs with
  | nil => intro acc; simp
  | cons y ys ih =>
    intro acc
    by_cases hy : acc.contains y = true
    · rw [List.foldl_cons, if_pos hy, ih]
      by_cases hxy : x = y
      · subst hxy
        simp [hy]
        exact Or.inl (by simpa using hy)
      · simp [List.contains_cons, hxy]
    · rw [List.foldl_cons, if_neg hy, ih]
      simp [List.contains_cons, Bool.or_assoc]

theorem filter_erase_key_any (l : List PollVoteRow) (pid oid uid : String) :
    ((l.filter (fun v => !(v.pollId == pid && v.userId == uid))).any
      (fun v => v.pollId == pid && v.optionId == oid && v.userId == uid)) =
      false := by
  rw [List.any_eq_false]
  intro v hv
  rw [List.mem_filter] at hv
  simp_all [Bool.and_eq_true]
  intro h1 _ h3
  rcases hv.2 with h | h
  · exact h h1
  · exact h h3

theorem filter_key_of_erased (l : List PollVoteRow) (pid uid : String) :
    ((l.filter (fun v => !(v.pollId == pid && v.userId == uid))).filter
      (fun v => v.pollId == pid && v.userId == uid)) = [] := by
  rw [List.filter_eq_nil_iff]
  intro v hv
  rw [List.mem_filter] at hv
  simp_all
  intro h1 h3
  rcases hv.2 with h | h
  · exact h h1
  · exact h h3

theorem filter_triple_of_erased (l : List PollVoteRow) (pid oid uid : String) :
    ((l.filter (fun v => !(v.pollId == pid && v.userId == uid))).filter
      (fun v => v.pollId == pid && v.optionId == oid && v.userId == uid)) =
      [] := by
  rw [List.filter_eq_nil_iff]
  intro v hv
  rw [List.mem_filter] at hv
  simp_all
  intro h1 _ h3
  rcases hv.2 with h | h
  · exact h h1
  · exact h h3

theorem filter_not_key_idem (l : List PollVoteRow) (pid uid : String) :
    ((l.filter (fun v => !(v.pollId == pid && v.userId == uid))).filter
      (fun v => !(v.pollId == pid && v.userId == uid))) =
      l.filter (fun v => !(v.pollId == pid && v.userId == uid)) := by
  rw [List.filter_eq_self]
  intro v hv
  exact (List.mem_filter.mp hv).2

theorem map_if_unmatched {α : Type} (l : List α) (f : α → α) (p : α → Bool)
    (hl : ∀ x ∈ l, ¬ p x = true) :
    l.map (fun x => if p x then f x else x) = l := by
  induction l with
  | nil => rfl
  | cons a t ih =>
    simp only [List.map_cons]
    rw [if_neg (hl a (List.mem_cons_self a t)),
      ih (fun x hx => hl x (List.mem_cons_of_mem a hx))]

/-! ## C1 -/

/-- C1: for every incoming connection, if the handshake carries no (truthy)
bearer token, or token verification reports an error or returns no user,
the connection never reaches the Active state: the middleware rejects it
before any room membership is set up. -/
theorem connectionNeverActiveWithoutValidToken
    (verifyToken : JsVal → Option AuthUser × Bool) (s : Store) (token : JsVal)
    (h : token.truthy = false ∨ (verifyToken token).2 = true ∨
         (verifyToken token).1 = none) :
    (establishConnection verifyToken s token).isActive = false := by
  unfold establishConnection authMiddleware
  rcases h with h | h | h
  · simp [h, ConnState.isActive]
  · by_cases ht : token.truthy
    · cases hv : verifyToken token with
      | mk u e =>
        rw [hv] at h
        subst h
        simp [ht, hv, ConnState.isActive]
    · simp [Bool.eq_false_iff.mpr ht, ConnState.isActive]
  · by_cases ht : token.truthy
    · cases hv : verifyToken token with
      | mk u e =>
        rw [hv] at h
        subst h
        cases e <;> simp [ht, hv, ConnState.isActive]
    · simp [Bool.eq_false_iff.mpr ht, ConnState.isActive]

/-- Witness for C1 at a concrete token whose verification returns no user. -/
theorem connectionNeverActiveWithoutValidToken_witness :
    (establishConnection (fun _ => (none, false)) baseStore
      (JsVal.strV [ 't' ])).isActive = false :=
  connectionNeverActiveWithoutValidToken _ _ _ (Or.inr (Or.inr rfl))

/-! ## C9 -/

/-- C9: a `delete_message` from a participant with a falsy
`deleteForEveryone` emits no broadcast, mutates nothing and still
acknowledges success — without any ownership or admin check (no ownership
hypothesis appears below; the authorization check sits in the
`deleteForEveryone` branch only). -/
theorem deleteMessageNotForEveryone (cb : Option Unit) (ctx : SocketCtx)
    (s : Store) (d : DeleteMessagePayload) (pr : ParticipantRow)
    (hPart : findParticipant s d.conversationId ctx.userId = some pr)
    (hdfe : d.deleteForEveryone.truthy = false) :
    deleteMessage cb ctx s d = .ok ⟨s, [], [], some .ok⟩ := by
  unfold deleteMessage
  simp [guardCb_eq, jsTry, hPart, hdfe, ackWith, callCb, Except.map]

/-- Witness for C9: a non-owner participant deletes locally (falsy flag). -/
theorem deleteMessageNotForEveryone_witness :
    deleteMessage (some ()) ctxAdmin baseStore
      ⟨"c1", "m1", JsVal.boolV false⟩ = .ok ⟨baseStore, [], [], some .ok⟩ :=
  deleteMessageNotForEveryone (some ()) ctxAdmin baseStore
    ⟨"c1", "m1", JsVal.boolV false⟩ ⟨"c1", "uAdm", 0⟩ (by decide) (by decide)

/-! ## C10 -/

/-- C10: `delete_message`, `edit_message` and `vote_poll` substitute a no-op
for a missing acknowledgment callback, so they always run to completion;
`send_message` and `mark_read` do not, and a missing callback makes them
throw a TypeError. -/
theorem missingCallbackSafety :
    (∀ (ctx : SocketCtx) (s : Store) (d : DeleteMessagePayload),
       isCompleted (deleteMessage none ctx s d) = true) ∧
    (∀ (ctx : SocketCtx) (s : Store) (d : EditMessagePayload) (now : Nat),
       isCompleted (editMessage none ctx s d now) = true) ∧
    (∀ (ctx : SocketCtx) (s : Store) (d : VotePollPayload) (now : Nat),
       isCompleted (votePoll none ctx s d now) = true) ∧
    sendMessage none ctxA baseStore { conversationId := "c1", messageText := [ 'h' ] }
      freshA 3 = .error "TypeError: callback is not a function" ∧
    markRead none ctxA baseStore "c1" 3 =
      .error "TypeError: callback is not a function" := by
  refine ⟨?_, ?_, ?_, rfl, rfl⟩
  · intro ctx s d
    unfold deleteMessage
    simp only [guardCb_eq, ackWith, callCb, Except.map]
    exact jsTry_completed _ _
  · intro ctx s d now
    unfold editMessage
    simp only [guardCb_eq, ackWith, callCb, Except.map]
    exact jsTry_completed _ _
  · intro ctx s d now
    unfold votePoll
    simp only [guardCb_eq, ackWith, callCb, Except.map]
    exact jsTry_completed _ _

/-! ## C2 (counterexample part) -/

/-- Counterexample to C2 as stated: `mark_read` is listed among the
participant-only commands, but a caller with no participant record for the
conversation is not rejected — the handler acknowledges success and still
broadcasts `user_read` to the room. -/
theorem markReadNonParticipant_cex :
    findParticipant baseStore "c9" ctxX.userId = none ∧
    markRead (some ()) ctxX baseStore "c9" 5 =
      .ok ⟨baseStore, [⟨"c9", true, .userRead "uX" "c9"⟩], [], some .ok⟩ :=
  ⟨rfl, rfl⟩

/-- C2 (amended): for `send_message`, `delete_message`, `edit_message`
(with text that passes the validation that precedes the participant
check), `react_to_message` and `typing_start`, a caller with no
participant record for the conversation is rejected with a
not-a-participant error; the store is unchanged and nothing is broadcast
to the room (edit failures additionally push a sender-directed error
event, which is not a room broadcast).  `mark_read`, however, performs no
participant check: it mutates nothing (its update only targets the
caller's own — absent — participant row) but still broadcasts `user_read`
and acknowledges success. -/
theorem participantGateAmended (ctx : SocketCtx) (s : Store) (cid : String)
    (h : findParticipant s cid ctx.userId = none) :
    (∀ (d : SendMessagePayload) (fresh : FreshIds) (now : Nat),
       d.conversationId = cid →
       sendMessage (some ()) ctx s d fresh now =
         .ok ⟨s, [], [], some (.err "Not a participant in this conversation")⟩) ∧
    (∀ (cb : Option Unit) (d : DeleteMessagePayload), d.conversationId = cid →
       deleteMessage cb ctx s d =
         .ok ⟨s, [], [], some (.err "Not a participant in this conversation")⟩) ∧
    (∀ (cb : Option Unit) (d : EditMessagePayload) (now : Nat),
       d.conversationId = cid →
       d.newText.isString = true →
       1 ≤ (jsTrim d.newText.asStr).length →
       d.newText.asStr.length ≤ 5000 →
       editMessage cb ctx s d now =
         .ok ⟨s, [],
              [⟨"edit_message_failed", "Not a participant in this conversation"⟩],
              some (.err "Not a participant in this conversation")⟩) ∧
    (∀ (lc : String → String → Int) (mid : String),
       reactToMessage lc ctx s cid mid = ⟨s, [], [], none⟩) ∧
    (typingStart ctx s cid = ⟨s, [], [], none⟩) ∧
    (∀ now : Nat,
       markRead (some ()) ctx s cid now =
         .ok ⟨s, [⟨cid, true, .userRead ctx.userId cid⟩], [], some .ok⟩) := by
  refine ⟨?_, ?_, ?_, ?_, ?_, ?_⟩
  · intro d fresh now hd
    subst hd
    unfold sendMessage
    simp [h, jsTry, ackWith, callCb, Except.map]
  · intro cb d hd
    subst hd
    unfold deleteMessage
    simp [h, guardCb_eq, jsTry, ackWith, callCb, Except.map]
  · intro cb d now hd hstr hlen1 hlen2
    subst hd
    have h1f : (!d.newText.truthy || !d.newText.isString ||
        ((jsTrim d.newText.asStr).length == 0)) = false := by
      cases hnt : d.newText with
      | strV t =>
        rw [hnt] at hlen1
        simp only [JsVal.asStr] at hlen1
        have hne : ¬t = [] := by
          intro h0
          rw [h0] at hlen1
          simp [jsTrim] at hlen1
        simp only [JsVal.truthy, JsVal.isString, JsVal.asStr]
        simp [List.isEmpty_iff, hne]
        first
        | omega
        | · intro h0
            rw [h0] at hlen1
            simp at hlen1
      | undef => rw [hnt] at hstr; simp [JsVal.isString] at hstr
      | nullV => rw [hnt] at hstr; simp [JsVal.isString] at hstr
      | boolV b => rw [hnt] at hstr; simp [JsVal.isString] at hstr
      | numV n => rw [hnt] at hstr; simp [JsVal.isString] at hstr
      | arrV es => rw [hnt] at hstr; simp [JsVal.isString] at hstr
    unfold editMessage
    simp [guardCb_eq, h1f, h, jsTry, ackWith, callCb, Except.map,
      show ¬(d.newText.asStr.length > 5000) from by omega]
  · intro lc mid
    unfold reactToMessage
    simp [h]
  · unfold typingStart
    simp [h]
  · intro now
    unfold markRead
    have hall : ∀ x ∈ s.participants,
        ¬(x.conversationId == cid && x.userId == ctx.userId) = true := by
      have := List.find?_eq_none.mp h
      exact this
    rw [map_if_unmatched s.participants _ _ hall]
    simp [jsTry, ackWith, callCb, Except.map]

/-- Witness for C2's amended claim: the non-participant `uX` is rejected by
`send_message` yet `mark_read` still succeeds and broadcasts. -/
theorem participantGateAmended_witness :
    sendMessage (some ()) ctxX baseStore
      { conversationId := "c9", messageText := [ 'h' ] } freshA 3 =
      .ok ⟨baseStore, [], [],
           some (.err "Not a participant in this conversation")⟩ ∧
    markRead (some ()) ctxX baseStore "c9" 3 =
      .ok ⟨baseStore, [⟨"c9", true, .userRead ctxX.userId "c9"⟩], [],
           some .ok⟩ := by
  have h := participantGateAmended ctxX baseStore "c9" (by decide)
  exact ⟨h.1 { conversationId := "c9", messageText := [ 'h' ] } freshA 3 rfl,
    h.2.2.2.2.2 3⟩

/-! ## C3 (counterexample part) -/

/-- Counterexample to C3 as stated: an admin-tier poll creation with a
single valid option is rejected (the code requires 2-12 options, not 1-12),
and a non-boolean allow-multiple value is not rejected — it is coerced to
`false` by `=== true` before validation and the poll is accepted. -/
theorem pollValidation_cex :
    ackOutcome (sendMessage (some ()) ctxAdmin baseStore
      { conversationId := "c1", messageText := [], messageType := "poll",
        pollQuestion := .strV [ 'Q' ], pollOptions := .arrV [ .strV [ 'a' ] ],
        allowMultiple := .boolV false } freshA 7) =
      some (.err "Options must be between 2 and 12") ∧
    (ackOutcome (sendMessage (some ()) ctxAdmin baseStore
      { conversationId := "c1", messageText := [], messageType := "poll",
        pollQuestion := .strV [ 'Q' ],
        pollOptions := .arrV [ .strV [ 'a' ], .strV [ 'b' ] ],
        allowMultiple := .strV [ 'y' ] } freshA 7)).map Ack.isSuccess =
      some true :=
  ⟨rfl, rfl⟩

/-! ## C3 (amended part) -/

theorem question_truthy_of_valid (question : JsVal)
    (hq : question.isString = true)
    (h1 : 1 ≤ (jsTrim question.asStr).length) : question.truthy = true := by
  cases hnt : question with
  | strV t =>
    rw [hnt] at h1
    simp only [JsVal.asStr] at h1
    have hne : ¬t = [] := by
      intro h0
      rw [h0] at h1
      simp [jsTrim] at h1
    simp [JsVal.truthy, List.isEmpty_iff, hne]
  | undef => rw [hnt] at hq; simp [JsVal.isString] at hq
  | nullV => rw [hnt] at hq; simp [JsVal.isString] at hq
  | boolV b => rw [hnt] at hq; simp [JsVal.isString] at hq
  | numV n => rw [hnt] at hq; simp [JsVal.isString] at hq
  | arrV es => rw [hnt] at hq; simp [JsVal.isString] at hq

theorem validatePollInput_question_bad (question options am : JsVal)
    (h : (jsTrim question.asStr).length = 0 ∨
         (jsTrim question.asStr).length = 201) :
    ∃ msg, validatePollInput question options am = some msg := by
  unfold validatePollInput
  by_cases h1 : (!question.truthy || !question.isString) = true
  · rw [if_pos h1]
    exact ⟨_, rfl⟩
  · rw [if_neg h1]
    have hcond : (decide ((jsTrim question.asStr).length < 1) ||
        decide ((jsTrim question.asStr).length > 200)) = true := by
      rcases h with h | h <;> simp [h]
    exact ⟨"Question must be 1-200 characters", by simp only [hcond]; rfl⟩

theorem validatePollInput_count_bad (question options am : JsVal)
    (hq : question.isString = true)
    (h1 : 1 ≤ (jsTrim question.asStr).length)
    (h2 : (jsTrim question.asStr).length ≤ 200)
    (ha : options.isArray = true)
    (hlen : options.asArr.length = 1 ∨ options.asArr.length = 13) :
    validatePollInput question options am =
      some "Options must be between 2 and 12" := by
  unfold validatePollInput
  rw [if_neg (by simp [question_truthy_of_valid question hq h1, hq])]
  rw [if_neg (by
    simp only [Bool.or_eq_true, decide_eq_true_eq, not_or]
    exact ⟨by omega, by omega⟩)]
  rw [if_neg (by simp [ha])]
  rw [if_pos (by rcases hlen with h | h <;> simp [h])]

theorem validatePollInput_ok (question options : JsVal) (b : Bool)
    (hq : question.isString = true)
    (h1 : 1 ≤ (jsTrim question.asStr).length)
    (h2 : (jsTrim question.asStr).length ≤ 200)
    (ha : options.isArray = true)
    (hlen : options.asArr.length = 2 ∨ options.asArr.length = 12)
    (hopts : ∀ o ∈ options.asArr, o.isString = true ∧
      1 ≤ (jsTrim o.asStr).length ∧ (jsTrim o.asStr).length ≤ 120) :
    validatePollInput question options (.boolV b) = none := by
  unfold validatePollInput
  rw [if_neg (by simp [question_truthy_of_valid question hq h1, hq])]
  rw [if_neg (by
    simp only [Bool.or_eq_true, decide_eq_true_eq, not_or]
    exact ⟨by omega, by omega⟩)]
  rw [if_neg (by simp [ha])]
  rw [if_neg (by rcases hlen with h | h <;> simp [h])]
  rw [if_neg ?hany, if_neg (by simp [JsVal.isBool])]
  case hany =>
    simp only [Bool.not_eq_true, List.any_eq_false]
    intro o ho
    obtain ⟨hs, hl1, hl2⟩ := hopts o ho
    simp only [hs, Bool.not_true, Bool.false_or, Bool.or_eq_false_iff,
      decide_eq_false_iff_not]
    exact ⟨by omega, by omega⟩

theorem sendMessage_poll_path (ctx : SocketCtx) (s : Store)
    (d : SendMessagePayload) (fresh : FreshIds) (now : Nat)
    (pr : ParticipantRow)
    (hPart : findParticipant s d.conversationId ctx.userId = some pr)
    (hType : d.messageType = "poll")
    (hAdmin : isAdminRole ctx.userRole = true) :
    sendMessage (some ()) ctx s d fresh now =
      (match validatePollInput d.pollQuestion d.pollOptions
          (.boolV (d.allowMultiple == JsVal.boolV true)) with
       | some msg => .ok ⟨s, [], [], some (.err msg)⟩
       | none => .ok (pollSendOutcome ctx s d fresh now)) := by
  unfold sendMessage pollSendOutcome
  cases hv : validatePollInput d.pollQuestion d.pollOptions
      (.boolV (d.allowMultiple == JsVal.boolV true)) <;>
    simp [hPart, hType, hAdmin, hv, jsTry, ackWith, callCb, Except.map]

/-- C3 (amended): for an admin-tier participant sender, a poll whose
question trims to length 0 or 201 is rejected with a validation error and
no store mutation; a poll with 2 or 12 valid options is accepted (with any
allow-multiple value); one with 1 or 13 options is rejected before any
store mutation (the code requires 2-12 options, not 1-12); and a
non-boolean allow-multiple value is never rejected — `=== true` coerces it
to `false` before validation, so the created poll records
`allow_multiple = false`. -/
theorem pollValidationAmended (ctx : SocketCtx) (s : Store)
    (pr : ParticipantRow) (hAdmin : isAdminRole ctx.userRole = true) :
    (∀ (d : SendMessagePayload) (fresh : FreshIds) (now : Nat),
       findParticipant s d.conversationId ctx.userId = some pr →
       d.messageType = "poll" →
       ((jsTrim d.pollQuestion.asStr).length = 0 ∨
        (jsTrim d.pollQuestion.asStr).length = 201) →
       ∃ msg, sendMessage (some ()) ctx s d fresh now =
         .ok ⟨s, [], [], some (.err msg)⟩) ∧
    (∀ (d : SendMessagePayload) (fresh : FreshIds) (now : Nat),
       findParticipant s d.conversationId ctx.userId = some pr →
       d.messageType = "poll" →
       d.pollQuestion.isString = true →
       1 ≤ (jsTrim d.pollQuestion.asStr).length →
       (jsTrim d.pollQuestion.asStr).length ≤ 200 →
       d.pollOptions.isArray = true →
       (d.pollOptions.asArr.length = 2 ∨ d.pollOptions.asArr.length = 12) →
       (∀ o ∈ d.pollOptions.asArr, o.isString = true ∧
          1 ≤ (jsTrim o.asStr).length ∧ (jsTrim o.asStr).length ≤ 120) →
       sendMessage (some ()) ctx s d fresh now =
         .ok (pollSendOutcome ctx s d fresh now)) ∧
    (∀ (d : SendMessagePayload) (fresh : FreshIds) (now : Nat),
       findParticipant s d.conversationId ctx.userId = some pr →
       d.messageType = "poll" →
       d.pollQuestion.isString = true →
       1 ≤ (jsTrim d.pollQuestion.asStr).length →
       (jsTrim d.pollQuestion.asStr).length ≤ 200 →
       d.pollOptions.isArray = true →
       (d.pollOptions.asArr.length = 1 ∨ d.pollOptions.asArr.length = 13) →
       sendMessage (some ()) ctx s d fresh now =
         .ok ⟨s, [], [], some (.err "Options must be between 2 and 12")⟩) ∧
    (∀ (d : SendMessagePayload) (fresh : FreshIds) (now : Nat),
       d.allowMultiple.isBool = false →
       (d.allowMultiple == JsVal.boolV true) = false ∧
       (pollSendOutcome ctx s d fresh now).store.polls =
         s.polls ++ [⟨fresh.pollId, d.conversationId, ctx.userId,
           jsTrim d.pollQuestion.asStr, false⟩]) := by
  refine ⟨?_, ?_, ?_, ?_⟩
  · intro d fresh now hPart hType hq
    obtain ⟨msg, hmsg⟩ := validatePollInput_question_bad d.pollQuestion
      d.pollOptions (.boolV (d.allowMultiple == JsVal.boolV true)) hq
    refine ⟨msg, ?_⟩
    rw [sendMessage_poll_path ctx s d fresh now pr hPart hType hAdmin, hmsg]
  · intro d fresh now hPart hType hq h1 h2 ha hlen hopts
    rw [sendMessage_poll_path ctx s d fresh now pr hPart hType hAdmin,
      validatePollInput_ok d.pollQuestion d.pollOptions _ hq h1 h2 ha hlen hopts]
  · intro d fresh now hPart hType hq h1 h2 ha hlen
    rw [sendMessage_poll_path ctx s d fresh now pr hPart hType hAdmin,
      validatePollInput_count_bad d.pollQuestion d.pollOptions _ hq h1 h2 ha hlen]
  · intro d fresh now hb
    have hco : (d.allowMultiple == JsVal.boolV true) = false := by
      cases hab : d.allowMultiple <;> simp_all [JsVal.isBool]
    refine ⟨hco, ?_⟩
    unfold pollSendOutcome
    simp [hco]

/-- Witness for C3's amended claim: a 2-option poll by the admin `uAdm` is
accepted; a 13-option poll is rejected with the options-count error. -/
theorem pollValidationAmended_witness :
    sendMessage (some ()) ctxAdmin baseStore
      { conversationId := "c1", messageText := [], messageType := "poll",
        pollQuestion := .strV [ 'Q' ],
        pollOptions := .arrV [ .strV [ 'a' ], .strV [ 'b' ] ],
        allowMultiple := .boolV true } freshA 7 =
      .ok (pollSendOutcome ctxAdmin baseStore
        { conversationId := "c1", messageText := [], messageType := "poll",
          pollQuestion := .strV [ 'Q' ],
          pollOptions := .arrV [ .strV [ 'a' ], .strV [ 'b' ] ],
          allowMultiple := .boolV true } freshA 7) ∧
    sendMessage (some ()) ctxAdmin baseStore
      { conversationId := "c1", messageText := [], messageType := "poll",
        pollQuestion := .strV [ 'Q' ],
        pollOptions := .arrV (List.replicate 13 (.strV [ 'a' ])),
        allowMultiple := .boolV true } freshA 7 =
      .ok ⟨baseStore, [], [], some (.err "Options must be between 2 and 12")⟩ := by
  have h := pollValidationAmended ctxAdmin baseStore ⟨"c1", "uAdm", 0⟩ (by decide)
  constructor
  · exact h.2.1 _ freshA 7 rfl rfl rfl (by decide) (by decide) rfl
      (by decide) (by decide)
  · exact h.2.2.1 _ freshA 7 rfl rfl rfl (by decide) (by decide) rfl
      (by decide)

/-! ## C8 -/

theorem editMessageEmptyTextPath (cb : Option Unit) (ctx : SocketCtx)
    (s : Store) (d : EditMessagePayload) (now : Nat)
    (h1 : (!d.newText.truthy || !d.newText.isString ||
      ((jsTrim d.newText.asStr).length == 0)) = true) :
    editMessage cb ctx s d now =
      .ok ⟨s, [], [⟨"edit_message_failed", "Message text cannot be empty"⟩],
           some (.err "Message text cannot be empty")⟩ := by
  unfold editMessage
  simp [guardCb_eq, h1, jsTry, ackWith, callCb, Except.map]

theorem editMessageTooLongPath (cb : Option Unit) (ctx : SocketCtx)
    (s : Store) (d : EditMessagePayload) (now : Nat)
    (h1 : (!d.newText.truthy || !d.newText.isString ||
      ((jsTrim d.newText.asStr).length == 0)) = false)
    (h2 : d.newText.asStr.length > 5000) :
    editMessage cb ctx s d now =
      .ok ⟨s, [],
           [⟨"edit_message_failed", "Message text too long (max 5000 chars)"⟩],
           some (.err "Message text too long (max 5000 chars)")⟩ := by
  unfold editMessage
  simp [guardCb_eq, h1, h2, jsTry, ackWith, callCb, Except.map]

/-- C8: `edit_message` text validation.  Text that is empty after trimming,
or whose trimmed length exceeds 5000, is rejected before any store
mutation, with a standalone `edit_message_failed` event pushed to the
sender in addition to the error acknowledgment; and any successful edit
had a trimmed length of 1 to 5000. -/
theorem editMessageTextValidation (cb : Option Unit) (ctx : SocketCtx)
    (s : Store) (d : EditMessagePayload) (now : Nat) :
    ((jsTrim d.newText.asStr).length = 0 →
      editMessage cb ctx s d now =
        .ok ⟨s, [], [⟨"edit_message_failed", "Message text cannot be empty"⟩],
             some (.err "Message text cannot be empty")⟩) ∧
    ((jsTrim d.newText.asStr).length > 5000 →
      editMessage cb ctx s d now =
        .ok ⟨s, [],
             [⟨"edit_message_failed", "Message text too long (max 5000 chars)"⟩],
             some (.err "Message text too long (max 5000 chars)")⟩) ∧
    (∀ r, editMessage cb ctx s d now = .ok r → r.ack = some .ok →
      1 ≤ (jsTrim d.newText.asStr).length ∧
      (jsTrim d.newText.asStr).length ≤ 5000) := by
  refine ⟨?_, ?_, ?_⟩
  · intro h
    exact editMessageEmptyTextPath cb ctx s d now (by simp [h])
  · intro h
    have hunt : 5000 < d.newText.asStr.length :=
      lt_of_lt_of_le h (jsTrim_length_le _)
    have h1f : (!d.newText.truthy || !d.newText.isString ||
        ((jsTrim d.newText.asStr).length == 0)) = false := by
      cases hnt : d.newText with
      | strV t =>
        rw [hnt] at h
        have hne : ¬t = [] := by
          intro h0
          rw [h0] at h
          simp [JsVal.asStr, jsTrim] at h
        simp only [JsVal.truthy, JsVal.isString, JsVal.asStr] at h ⊢
        simp [List.isEmpty_iff, hne]
        first
        | omega
        | · intro h0
            rw [h0] at h
            simp at h
      | undef => rw [hnt] at h; simp [JsVal.asStr, jsTrim] at h
      | nullV => rw [hnt] at h; simp [JsVal.asStr, jsTrim] at h
      | boolV b => rw [hnt] at h; simp [JsVal.asStr, jsTrim] at h
      | numV n => rw [hnt] at h; simp [JsVal.asStr, jsTrim] at h
      | arrV es => rw [hnt] at h; simp [JsVal.asStr, jsTrim] at h
    exact editMessageTooLongPath cb ctx s d now h1f hunt
  · intro r hr hack
    by_cases h1 : (!d.newText.truthy || !d.newText.isString ||
        ((jsTrim d.newText.asStr).length == 0)) = true
    · exfalso
      rw [editMessageEmptyTextPath cb ctx s d now h1] at hr
      injection hr with hr'
      rw [← hr'] at hack
      simp at hack
    · by_cases h2 : d.newText.asStr.length > 5000
      · exfalso
        rw [editMessageTooLongPath cb ctx s d now (Bool.eq_false_iff.mpr h1) h2] at hr
        injection hr with hr'
        rw [← hr'] at hack
        simp at hack
      · have h1' : (jsTrim d.newText.asStr).length ≠ 0 := by
          intro h0
          exact h1 (by simp [h0])
        have h2' : d.newText.asStr.length ≤ 5000 := by omega
        exact ⟨by omega, le_trans (jsTrim_length_le _) h2'⟩

/-- Witness for C8 at a concrete whitespace-only edit text. -/
theorem editMessageTextValidation_witness :
    editMessage (some ()) ctxA baseStore ⟨"c1", "m1", .strV [ ' ' ]⟩ 4 =
      .ok ⟨baseStore, [],
           [⟨"edit_message_failed", "Message text cannot be empty"⟩],
           some (.err "Message text cannot be empty")⟩ :=
  (editMessageTextValidation (some ()) ctxA baseStore
    ⟨"c1", "m1", .strV [ ' ' ]⟩ 4).1 (by decide)

/-! ## C6 -/

/-- C6: `edit_message` never touches `chat_conversations` (in particular a
successful edit leaves the conversation's last-activity timestamp
unchanged), while a successful `send_message` rewrites the conversation
row's `updated_at` to the current time. -/
theorem editKeepsConversationsSendTouches :
    (∀ (cb : Option Unit) (ctx : SocketCtx) (s : Store) (d : EditMessagePayload)
       (now : Nat) (r : HandlerResult),
       editMessage cb ctx s d now = .ok r →
       r.store.conversations = s.conversations) ∧
    (∀ (ctx : SocketCtx) (s : Store) (d : SendMessagePayload)
       (fresh : FreshIds) (now : Nat) (r : HandlerResult) (m : EnrichedMessage),
       sendMessage (some ()) ctx s d fresh now = .ok r →
       r.ack = some (.okMessage m) →
       r.store.conversations = s.conversations.map (fun c =>
         if c.id == d.conversationId then { c with updatedAt := now } else c)) := by
  constructor
  · intro cb ctx s d now r hr
    unfold editMessage at hr
    simp only [guardCb_eq, ackWith, callCb, Except.map] at hr
    repeat' split at hr
    all_goals simp only [jsTry, Except.ok.injEq] at hr
    all_goals subst hr
    all_goals rfl
  · intro ctx s d fresh now r m hr hack
    unfold sendMessage at hr
    simp only [ackWith, callCb, Except.map] at hr
    repeat' split at hr
    all_goals simp only [jsTry, Except.ok.injEq] at hr
    all_goals subst hr
    all_goals first
      | rfl
      | simp at hack

/-- Witness for C6: a concrete successful edit leaves the conversation row
untouched, and a concrete successful send stamps it with the send time. -/
theorem editKeepsConversationsSendTouches_witness :
    (storeOutcome (editMessage (some ()) ctxA baseStore
        ⟨"c1", "m1", .strV [ 'z' ]⟩ 4)).map (fun st => st.conversations) =
      some baseStore.conversations ∧
    (storeOutcome (sendMessage (some ()) ctxA baseStore
        { conversationId := "c1", messageText := [ 'h' ] } freshA 9)).map
        (fun st => st.conversations) = some [⟨"c1", false, 9⟩] := by
  constructor
  · have h := editKeepsConversationsSendTouches.1 (some ()) ctxA baseStore
      ⟨"c1", "m1", .strV [ 'z' ]⟩ 4 _ rfl
    exact congrArg some h
  · have h := editKeepsConversationsSendTouches.2 ctxA baseStore
      { conversationId := "c1", messageText := [ 'h' ] } freshA 9 _ _ rfl rfl
    exact congrArg some (h.trans rfl)

/-! ## C4 -/

/-- C4: on a single-choice poll, a user who already holds a vote on option
A and casts a vote on option B ends with exactly one vote row on that poll,
and it is on option B (the handler deletes all of the user's rows for the
poll and then upserts the new one). -/
theorem singleChoiceRevote (ctx : SocketCtx) (s : Store) (d : VotePollPayload)
    (poll : PollRow) (pr : ParticipantRow) (optA : String) (t0 now : Nat)
    (hcid : d.conversationId ≠ "") (hpid : d.pollId ≠ "") (hoid : d.optionId ≠ "")
    (hch : d.checked = .boolV true)
    (hPart : findParticipant s d.conversationId ctx.userId = some pr)
    (hPoll : findPoll s d.pollId = some poll)
    (hConv : poll.conversationId = d.conversationId)
    (hSingle : poll.allowMultiple = false)
    (hOptB : ((s.pollOptions.filter (fun o => o.pollId == d.pollId)).map
      (fun o => o.id)).contains d.optionId = true)
    (hHeld : PollVoteRow.mk d.pollId optA ctx.userId t0 ∈ s.pollVotes)
    (hAB : optA ≠ d.optionId) :
    (voteStore ctx s d now).map (fun s2 =>
      s2.pollVotes.filter (fun v =>
        v.pollId == d.pollId && v.userId == ctx.userId)) =
      some [⟨d.pollId, d.optionId, ctx.userId, now⟩] := by
  have hc1 : (d.conversationId == "") = false := beq_eq_false_iff_ne.mpr hcid
  have hc2 : (d.pollId == "") = false := beq_eq_false_iff_ne.mpr hpid
  have hc3 : (d.optionId == "") = false := beq_eq_false_iff_ne.mpr hoid
  unfold voteStore votePoll
  rw [hch]
  simp only [hc1, hc2, hc3, JsVal.isBool, JsVal.truthy, guardCb_eq, hPart, hPoll,
    hConv, bne_self_eq_false, Bool.not_true, Bool.or_false, Bool.or_self,
    Bool.false_or, Bool.not_false, if_false, Bool.and_true, hSingle,
    dedupStr_contains, hOptB, filter_erase_key_any, ackWith, callCb, Except.map,
    jsTry]
  simp only [Bool.false_eq_true, if_false, if_true, Bool.true_and]
  rw [filter_erase_key_any]
  simp [List.filter_append, filter_key_of_erased]

/-! ## C5 -/

theorem votePoll_checked_store (ctx : SocketCtx) (s : Store) (d : VotePollPayload)
    (poll : PollRow) (pr : ParticipantRow) (now : Nat)
    (hcid : d.conversationId ≠ "") (hpid : d.pollId ≠ "") (hoid : d.optionId ≠ "")
    (hch : d.checked = .boolV true)
    (hPart : findParticipant s d.conversationId ctx.userId = some pr)
    (hPoll : findPoll s d.pollId = some poll)
    (hConv : poll.conversationId = d.conversationId)
    (hOptB : ((s.pollOptions.filter (fun o => o.pollId == d.pollId)).map
      (fun o => o.id)).contains d.optionId = true) :
    voteStore ctx s d now = some (
      if poll.allowMultiple then
        (if s.pollVotes.any (fun v => v.pollId == d.pollId &&
             v.optionId == d.optionId && v.userId == ctx.userId) then s
         else { s with pollVotes :=
           s.pollVotes ++ [⟨d.pollId, d.optionId, ctx.userId, now⟩] })
      else
        { s with pollVotes :=
            s.pollVotes.filter (fun v =>
              !(v.pollId == d.pollId && v.userId == ctx.userId)) ++
            [⟨d.pollId, d.optionId, ctx.userId, now⟩] }) := by
  have hc1 : (d.conversationId == "") = false := beq_eq_false_iff_ne.mpr hcid
  have hc2 : (d.pollId == "") = false := beq_eq_false_iff_ne.mpr hpid
  have hc3 : (d.optionId == "") = false := beq_eq_false_iff_ne.mpr hoid
  unfold voteStore votePoll
  rw [hch]
  simp only [hc1, hc2, hc3, JsVal.isBool, JsVal.truthy, guardCb_eq, hPart, hPoll,
    hConv, bne_self_eq_false, Bool.not_true, Bool.or_false, Bool.or_self,
    Bool.false_or, Bool.not_false, if_false, Bool.and_true,
    dedupStr_contains, hOptB, ackWith, callCb, Except.map, jsTry]
  simp only [Bool.false_eq_true, if_false, if_true]
  by_cases hM : poll.allowMultiple = true
  · simp only [hM, Bool.not_true, Bool.false_eq_true, if_false, if_true]
  · have hMf : poll.allowMultiple = false := Bool.eq_false_iff.mpr hM
    simp only [hMf, Bool.not_false, Bool.false_eq_true, if_false, if_true,
      filter_erase_key_any]

/-- C5: casting the same vote twice is idempotent — after the second call
the multiset of (pollId, optionId, userId) vote rows is unchanged (in
particular no duplicate row is created: the user's row count for that
triple is exactly 1 after the first call and stays 1), so every tally is
unchanged. -/
theorem voteCastTwiceIdempotent (ctx : SocketCtx) (s : Store) (d : VotePollPayload)
    (poll : PollRow) (pr : ParticipantRow) (now1 now2 : Nat)
    (hcid : d.conversationId ≠ "") (hpid : d.pollId ≠ "") (hoid : d.optionId ≠ "")
    (hch : d.checked = .boolV true)
    (hPart : findParticipant s d.conversationId ctx.userId = some pr)
    (hPoll : findPoll s d.pollId = some poll)
    (hConv : poll.conversationId = d.conversationId)
    (hOptB : ((s.pollOptions.filter (fun o => o.pollId == d.pollId)).map
      (fun o => o.id)).contains d.optionId = true)
    (hUniq : ∀ p o u, countTriple s p o u ≤ 1) :
    (∀ p o u, ((voteStore ctx s d now1).bind
        (fun s1 => voteStore ctx s1 d now2)).map
        (fun s2 => countTriple s2 p o u) =
      (voteStore ctx s d now1).map (fun s1 => countTriple s1 p o u)) ∧
    (voteStore ctx s d now1).map
      (fun s1 => countTriple s1 d.pollId d.optionId ctx.userId) = some 1 := by
  by_cases hM : poll.allowMultiple = true
  · by_cases hAny : (s.pollVotes.any (fun v => v.pollId == d.pollId &&
        v.optionId == d.optionId && v.userId == ctx.userId)) = true
    · have h1 : voteStore ctx s d now1 = some s := by
        rw [votePoll_checked_store ctx s d poll pr now1 hcid hpid hoid hch hPart
          hPoll hConv hOptB]
        simp [hM, hAny]
      have h2 : voteStore ctx s d now2 = some s := by
        rw [votePoll_checked_store ctx s d poll pr now2 hcid hpid hoid hch hPart
          hPoll hConv hOptB]
        simp [hM, hAny]
      constructor
      · intro p' o' u'
        rw [h1, Option.some_bind, h2]
      · rw [h1, Option.map_some']
        have hnn : s.pollVotes.filter (fun v => v.pollId == d.pollId &&
            v.optionId == d.optionId && v.userId == ctx.userId) ≠ [] := by
          rw [List.any_eq_true] at hAny
          obtain ⟨v, hv, hp⟩ := hAny
          exact List.ne_nil_of_mem (List.mem_filter.mpr ⟨hv, hp⟩)
        have hle := hUniq d.pollId d.optionId ctx.userId
        unfold countTriple at hle ⊢
        have hpos := List.length_pos.mpr hnn
        congr 1
        omega
    · have hAnyF := Bool.eq_false_iff.mpr hAny
      have h1 : voteStore ctx s d now1 =
          some
            { s with
              pollVotes :=
                s.pollVotes ++ [⟨d.pollId, d.optionId, ctx.userId, now1⟩] } := by
        rw [votePoll_checked_store ctx s d poll pr now1 hcid hpid hoid hch hPart
          hPoll hConv hOptB]
        simp [hM, hAnyF]
      have h2 : voteStore ctx
          { s with
            pollVotes :=
              s.pollVotes ++ [⟨d.pollId, d.optionId, ctx.userId, now1⟩] }
          d now2 =
          some
            { s with
              pollVotes :=
                s.pollVotes ++ [⟨d.pollId, d.optionId, ctx.userId, now1⟩] } := by
        rw [votePoll_checked_store ctx
          { s with
            pollVotes :=
              s.pollVotes ++ [⟨d.pollId, d.optionId, ctx.userId, now1⟩] }
          d poll pr now2 hcid hpid hoid hch hPart hPoll hConv hOptB]
        simp [hM, List.any_append]
      constructor
      · intro p' o' u'
        rw [h1, Option.some_bind, h2]
      · rw [h1, Option.map_some']
        have hnil : s.pollVotes.filter (fun v => v.pollId == d.pollId &&
            v.optionId == d.optionId && v.userId == ctx.userId) = [] :=
          List.filter_eq_nil_iff.mpr (List.any_eq_false.mp hAnyF)
        unfold countTriple
        simp [List.filter_append, hnil]
  · have hMf : poll.allowMultiple = false := Bool.eq_false_iff.mpr hM
    have h1 : voteStore ctx s d now1 =
        some
          { s with
            pollVotes :=
              s.pollVotes.filter (fun v =>
                !(v.pollId == d.pollId && v.userId == ctx.userId)) ++
              [⟨d.pollId, d.optionId, ctx.userId, now1⟩] } := by
      rw [votePoll_checked_store ctx s d poll pr now1 hcid hpid hoid hch hPart
        hPoll hConv hOptB]
      simp [hMf]
    have h2 : voteStore ctx
        { s with
          pollVotes :=
            s.pollVotes.filter (fun v =>
              !(v.pollId == d.pollId && v.userId == ctx.userId)) ++
            [⟨d.pollId, d.optionId, ctx.userId, now1⟩] }
        d now2 =
        some
          { s with
            pollVotes :=
              s.pollVotes.filter (fun v =>
                !(v.pollId == d.pollId && v.userId == ctx.userId)) ++
              [⟨d.pollId, d.optionId, ctx.userId, now2⟩] } := by
      rw [votePoll_checked_store ctx
        { s with
          pollVotes :=
            s.pollVotes.filter (fun v =>
              !(v.pollId == d.pollId && v.userId == ctx.userId)) ++
            [⟨d.pollId, d.optionId, ctx.userId, now1⟩] }
        d poll pr now2 hcid hpid hoid hch hPart hPoll hConv hOptB]
      simp [hMf, List.filter_append, filter_not_key_idem]
    constructor
    · intro p' o' u'
      rw [h1, Option.some_bind, h2]
      simp only [Option.map_some', Option.some.injEq]
      unfold countTriple
      simp only [List.filter_append, List.length_append]
      have harm : ∀ t : Nat,
          (List.filter (fun v => v.pollId == p' && v.optionId == o' &&
            v.userId == u')
            [(⟨d.pollId, d.optionId, ctx.userId, t⟩ : PollVoteRow)]).length =
          (if (d.pollId == p' && d.optionId == o' && ctx.userId == u') = true
           then 1 else 0) := by
        intro t
        by_cases hcnd : (d.pollId == p' && d.optionId == o' &&
            ctx.userId == u') = true <;>
          simp [List.filter, hcnd]
      rw [harm now1, harm now2]
    · rw [h1, Option.map_some']
      unfold countTriple
      simp [List.filter_append, filter_triple_of_erased]
      intro a _ ha1 _ ha3
      exact ⟨ha1, ha3⟩

/-- Witness for C4: `uA` holds a vote on `o1` of single-choice poll `p1`
and votes `o2`; exactly one row remains, on `o2`. -/
theorem singleChoiceRevote_witness :
    (voteStore ctxA storeWithVoteA ⟨"c1", "p1", "o2", .boolV true⟩ 9).map
      (fun s2 => s2.pollVotes.filter (fun v =>
        v.pollId == "p1" && v.userId == ctxA.userId)) =
      some [⟨"p1", "o2", "uA", 9⟩] :=
  singleChoiceRevote ctxA storeWithVoteA ⟨"c1", "p1", "o2", .boolV true⟩
    ⟨"p1", "c1", "uAdm", [ 'q' ], false⟩ ⟨"c1", "uA", 0⟩ "o1" 1 9
    (by decide) (by decide) (by decide) rfl rfl rfl rfl rfl rfl
    (by decide) (by decide)

/-- Witness for C5: `uA` casts the same vote twice on multi-choice poll
`p2`; the tally stays at a single row. -/
theorem voteCastTwiceIdempotent_witness :
    ((voteStore ctxA baseStore ⟨"c1", "p2", "o3", .boolV true⟩ 5).bind
      (fun s1 => voteStore ctxA s1 ⟨"c1", "p2", "o3", .boolV true⟩ 7)).map
      (fun s2 => countTriple s2 "p2" "o3" "uA") =
      (voteStore ctxA baseStore ⟨"c1", "p2", "o3", .boolV true⟩ 5).map
      (fun s1 => countTriple s1 "p2" "o3" "uA") ∧
    (voteStore ctxA baseStore ⟨"c1", "p2", "o3", .boolV true⟩ 5).map
      (fun s1 => countTriple s1 "p2" "o3" "uA") = some 1 := by
  have h := voteCastTwiceIdempotent ctxA baseStore ⟨"c1", "p2", "o3", .boolV true⟩
    ⟨"p2", "c1", "uAdm", [ 'q' ], true⟩ ⟨"c1", "uA", 0⟩ 5 7
    (by decide) (by decide) (by decide) rfl rfl rfl rfl rfl
    (fun p o u => by simp [countTriple, baseStore])
  exact ⟨h.1 "p2" "o3" "uA", h.2⟩

end SalesCrew
